import Mathlib

/-!
Shallow embedding of `main.py` of the EnterTheForest repository: the story-graph
loader/validator (`load_story`), the lenient model-output parser
(`parse_scene_and_options_json`), and the scene-resolution / routing logic of
`show_node` and its background `work`/`update` closures.

Python dynamic values are modelled by `JValue` (Python `None` is `JValue.jnull`,
exactly as produced by `json.loads` for JSON `null`).  Python exceptions are
modelled by `PyError`; fallible code returns `Except PyError _`.  The standard
library externals (`json.loads`, the regex recovery scan, `str.strip`) are
modelled by executable Lean functions on the same inputs.
-/

/-- Dynamic JSON/Python value, as produced by `json.loads`. -/
inductive JValue where
  | jnull : JValue
  | jbool : Bool → JValue
  | jnum : Rat → JValue
  | jstr : String → JValue
  | jarr : List JValue → JValue
  | jobj : List (String × JValue) → JValue

/-- Python exception classes raised by the embedded code. -/
inductive PyError where
  | fileNotFoundError : String → PyError
  | valueError : String → PyError
  | typeError : String → PyError
  | attributeError : String → PyError
  | keyError : String → PyError
  deriving DecidableEq

/-- Exception class (kind) of a `PyError`, forgetting the message. -/
inductive ErrKind where
  | fileNotFound
  | valueErr
  | typeErr
  | attrErr
  | keyErr
  deriving DecidableEq

/-- Kind of an error: which Python exception class it belongs to. -/
def PyError.kind : PyError → ErrKind
  | .fileNotFoundError _ => .fileNotFound
  | .valueError _ => .valueErr
  | .typeError _ => .typeErr
  | .attributeError _ => .attrErr
  | .keyError _ => .keyErr

/-- Message carried by an error (models `str(e)` loosely). -/
def pyMsg : PyError → String
  | .fileNotFoundError m => m
  | .valueError m => m
  | .typeError m => m
  | .attributeError m => m
  | .keyError m => m

/-- First-match association-list lookup: models Python `dict` indexing/`in`
on dicts built by `json.loads` (whose keys are unique). -/
def sGet (l : List (String × JValue)) (k : String) : Option JValue :=
  match l with
  | [] => none
  | (k2, v) :: rest => if k2 = k then some v else sGet rest k

/-- Python `dict` built by `json.loads`: a later duplicate key overwrites the
value in place. -/
def insertPy (fs : List (String × JValue)) (k : String) (v : JValue) :
    List (String × JValue) :=
  match fs with
  | [] => [(k, v)]
  | (k2, v2) :: rest =>
    if k2 = k then (k2, v) :: rest else (k2, v2) :: insertPy rest k v

/-- Python truthiness (`bool(x)`) of a JSON value. -/
def truthy : JValue → Bool
  | .jnull => false
  | .jbool b => b
  | .jnum q => q ≠ 0
  | .jstr s => s ≠ ""
  | .jarr xs => !xs.isEmpty
  | .jobj fs => !fs.isEmpty

/-- Python `node.get(k)` on a dict: absent key gives `None` (`jnull`), as does
a stored JSON `null`. -/
def pyGet (node : List (String × JValue)) (k : String) : JValue :=
  (sGet node k).getD .jnull

/-- Python `node.get(k, d)` on a dict: the default is used only when the key is
absent. -/
def pyGetD (node : List (String × JValue)) (k : String) (d : JValue) : JValue :=
  (sGet node k).getD d

/-- Python `isinstance(v, str)` as a partial projection. -/
def strOfJ : JValue → Option String
  | .jstr s => some s
  | _ => none

/-- Python `v in story` for a dict with string keys: a string is looked up,
other hashable scalars are simply not keys, and a list or dict raises
`TypeError` (unhashable). -/
def memStoryE (story : List (String × JValue)) (v : JValue) :
    Except PyError Bool :=
  match v with
  | .jstr s => .ok (sGet story s).isSome
  | .jarr _ => .error (.typeError "unhashable type")
  | .jobj _ => .error (.typeError "unhashable type")
  | _ => .ok false

/-- A value Python can hash (here: anything but a list or dict). -/
def jHashable : JValue → Bool
  | .jarr _ => false
  | .jobj _ => false
  | _ => true

/-! ### A model of Python `json.loads` (strict JSON parsing) -/

/-- JSON whitespace characters accepted between tokens by `json.loads`. -/
def isWsChar (c : Char) : Bool :=
  c = ' ' || c = '\t' || c = '\n' || c = '\r'

/-- Skip JSON whitespace. -/
def skipWs (cs : List Char) : List Char :=
  cs.dropWhile isWsChar

/-- ASCII digit test (codepoints 48 to 57). -/
def isDigitChar (c : Char) : Bool :=
  48 ≤ c.toNat && c.toNat ≤ 57

/-- Numeric value of an ASCII digit. -/
def digVal (c : Char) : Nat :=
  c.toNat - 48

/-- Value of a hex digit, if it is one (codepoint ranges of 0-9, a-f, A-F). -/
def hexVal (c : Char) : Option Nat :=
  let n := c.toNat
  if isDigitChar c then some (n - 48)
  else if 97 ≤ n && n ≤ 102 then some (n - 87)
  else if 65 ≤ n && n ≤ 70 then some (n - 55)
  else none

/-- Take a maximal run of digits. -/
def takeDigits : List Char → (List Nat × List Char)
  | [] => ([], [])
  | c :: rest =>
    if isDigitChar c then
      let p := takeDigits rest
      (digVal c :: p.1, p.2)
    else ([], c :: rest)

/-- Natural number denoted by a digit list. -/
def natOfDigits (ds : List Nat) : Nat :=
  ds.foldl (fun a d => 10 * a + d) 0

/-- Single-character JSON escapes. -/
def escMap : Char → Option Char
  | '"' => some '"'
  | '\\' => some '\\'
  | '/' => some '/'
  | 'b' => some '\x08'
  | 'f' => some '\x0c'
  | 'n' => some '\n'
  | 'r' => some '\r'
  | 't' => some '\t'
  | _ => none

/-- Parse the body of a JSON string after the opening quote, returning the
decoded characters and the remainder after the closing quote. -/
def parseStringChars : List Char → Option (List Char × List Char)
  | [] => none
  | c :: rest =>
    if c = '"' then some ([], rest)
    else if c = '\\' then
      match rest with
      | [] => none
      | 'u' :: h1 :: h2 :: h3 :: h4 :: rest2 =>
        match hexVal h1, hexVal h2, hexVal h3, hexVal h4 with
        | some a, some b, some c2, some d =>
          match parseStringChars rest2 with
          | some (s, r) => some (Char.ofNat (((a * 16 + b) * 16 + c2) * 16 + d) :: s, r)
          | none => none
        | _, _, _, _ => none
      | e :: rest2 =>
        match escMap e with
        | some ec =>
          match parseStringChars rest2 with
          | some (s, r) => some (ec :: s, r)
          | none => none
        | none => none
    else
      match parseStringChars rest with
      | some (s, r) => some (c :: s, r)
      | none => none

/-- Parse an optional fraction part (after the integer part). -/
def parseFrac : List Char → Option (List Nat × List Char)
  | '.' :: r =>
    match takeDigits r with
    | ([], _) => none
    | (ds, r2) => some (ds, r2)
  | cs => some ([], cs)

/-- Parse an optional exponent part. -/
def parseExp : List Char → Option (Int × List Char)
  | [] => some (0, [])
  | c :: r =>
    if c = 'e' || c = 'E' then
      match r with
      | '+' :: r2 =>
        (match takeDigits r2 with
         | ([], _) => none
         | (ds, r3) => some ((natOfDigits ds : Int), r3))
      | '-' :: r2 =>
        (match takeDigits r2 with
         | ([], _) => none
         | (ds, r3) => some (-(natOfDigits ds : Int), r3))
      | _ =>
        match takeDigits r with
        | ([], _) => none
        | (ds, r3) => some ((natOfDigits ds : Int), r3)
    else some (0, c :: r)

/-- Exact rational denoted by sign, integer digits, fraction digits, exponent. -/
def ratOfParts (neg : Bool) (ip : Nat) (frac : List Nat) (ex : Int) : Rat :=
  let base : Rat := ((ip * 10 ^ frac.length + natOfDigits frac : Nat) : Rat)
  let base := base / ((10 : Rat) ^ frac.length)
  let base :=
    if 0 ≤ ex then base * (10 : Rat) ^ ex.toNat else base / (10 : Rat) ^ (-ex).toNat
  if neg then -base else base

/-- Leading minus sign of a JSON number, if any. -/
def numSign : List Char → (Bool × List Char)
  | '-' :: r => (true, r)
  | cs => (false, cs)

/-- Parse a JSON number starting at a digit or minus sign. -/
def parseNumber (cs : List Char) : Option (Rat × List Char) :=
  let p := numSign cs
  match takeDigits p.2 with
  | ([], _) => none
  | (ds, cs2) =>
    match parseFrac cs2 with
    | none => none
    | some (fds, cs3) =>
      match parseExp cs3 with
      | none => none
      | some (ex, cs4) => some (ratOfParts p.1 (natOfDigits ds) fds ex, cs4)

mutual

/-- Fuel-indexed recursive-descent parser for a single JSON value. -/
def parseVal : Nat → List Char → Option (JValue × List Char)
  | 0, _ => none
  | Nat.succ fuel, cs =>
    match skipWs cs with
    | [] => none
    | '"' :: rest =>
      (parseStringChars rest).map (fun p => (JValue.jstr (String.mk p.1), p.2))
    | '\x7b' :: rest =>
      (match skipWs rest with
       | '\x7d' :: r => some (JValue.jobj [], r)
       | cs2 => parseMembers fuel cs2 [])
    | '[' :: rest =>
      (match skipWs rest with
       | ']' :: r => some (JValue.jarr [], r)
       | cs2 => parseElems fuel cs2 [])
    | 't' :: 'r' :: 'u' :: 'e' :: rest => some (JValue.jbool true, rest)
    | 'f' :: 'a' :: 'l' :: 's' :: 'e' :: rest => some (JValue.jbool false, rest)
    | 'n' :: 'u' :: 'l' :: 'l' :: rest => some (JValue.jnull, rest)
    | c :: rest =>
      if c = '-' || isDigitChar c then
        (parseNumber (c :: rest)).map (fun p => (JValue.jnum p.1, p.2))
      else none

/-- Parse the members of a JSON object (positioned at the first key). -/
def parseMembers : Nat → List Char → List (String × JValue) →
    Option (JValue × List Char)
  | 0, _, _ => none
  | Nat.succ fuel, cs, acc =>
    match skipWs cs with
    | '"' :: rest =>
      (match parseStringChars rest with
       | none => none
       | some (k, r1) =>
         match skipWs r1 with
         | ':' :: r2 =>
           (match parseVal fuel r2 with
            | none => none
            | some (v, r3) =>
              let acc2 := insertPy acc (String.mk k) v
              match skipWs r3 with
              | ',' :: r4 => parseMembers fuel r4 acc2
              | '\x7d' :: r4 => some (JValue.jobj acc2, r4)
              | _ => none)
         | _ => none)
    | _ => none

/-- Parse the elements of a JSON array (positioned at the first element). -/
def parseElems : Nat → List Char → List JValue → Option (JValue × List Char)
  | 0, _, _ => none
  | Nat.succ fuel, cs, acc =>
    match parseVal fuel cs with
    | none => none
    | some (v, r) =>
      match skipWs r with
      | ',' :: r2 => parseElems fuel r2 (acc ++ [v])
      | ']' :: r2 => some (JValue.jarr (acc ++ [v]), r2)
      | _ => none

end

/-- Model of Python `json.loads`: strict parse of the whole string (leading and
trailing whitespace allowed, nothing else around the value). -/
def jsonLoads (s : String) : Option JValue :=
  match parseVal (s.length + 2) s.data with
  | some (v, r) => if (skipWs r).isEmpty then some v else none
  | none => none

/-! ### `parse_scene_and_options_json` (main.py lines 107-131) -/

/-- Whitespace stripped by Python `str.strip` on ASCII text. -/
def isPyWs (c : Char) : Bool :=
  c = ' ' || c = '\t' || c = '\n' || c = '\r' || c = '\x0b' || c = '\x0c'

/-- Strip leading and trailing whitespace from a character list. -/
def stripList (cs : List Char) : List Char :=
  ((cs.dropWhile isPyWs).reverse.dropWhile isPyWs).reverse

/-- Model of Python `str.strip()`. -/
def pyStrip (s : String) : String :=
  String.mk (stripList s.data)

/-- Model of `re.search(r'\x7b.*\x7d', text, re.DOTALL)` followed by
`m.group(0)`: the greedy span from the first opening brace to the last closing
brace after it, if any. -/
def braceSpan (s : String) : Option String :=
  match s.data.dropWhile (fun c => c ≠ '\x7b') with
  | [] => none
  | b :: cs =>
    match (cs.reverse.dropWhile (fun c => c ≠ '\x7d')).reverse with
    | [] => none
    | body => some (String.mk (b :: body))

/-- All-strings projection of a list of JSON values. -/
def allStrs : List JValue → Option (List String)
  | [] => some []
  | v :: rest =>
    match strOfJ v, allStrs rest with
    | some s, some ss => some (s :: ss)
    | _, _ => none

/-- Python `isinstance(options, list) and all(isinstance(x, str) for x in options)`
as a partial projection to the string list. -/
def jStrList : JValue → Option (List String)
  | .jarr xs => allStrs xs
  | _ => none

/-- Tail of `parse_scene_and_options_json` after a successful `json.loads`:
`data.get(...)` raises `AttributeError` when `data` is not a dict; a non-string
scene degrades to the empty string; a non-list-of-strings options degrades to
the empty list; the list is truncated to 2 and everything is stripped. -/
def finishParse (data : JValue) : Except PyError (String × List String) :=
  match data with
  | .jobj fs =>
    let sceneV := pyGetD fs "scene" (.jstr "")
    let optionsV := pyGetD fs "options" (.jarr [])
    let scene := match sceneV with
      | .jstr s2 => s2
      | _ => ""
    let options := match jStrList optionsV with
      | some xs => xs
      | none => []
    .ok (pyStrip scene, (options.take 2).map pyStrip)
  | _ => .error (.attributeError "object has no attribute get")

/-- main.py `parse_scene_and_options_json` (lines 107-131): strict parse of the
whole raw output, then recovery on the brace-delimited substring, then field
extraction via `finishParse`. -/
def parse_scene_and_options_json (text : String) :
    Except PyError (String × List String) :=
  match jsonLoads text with
  | some data => finishParse data
  | none =>
    match braceSpan text with
    | none => .ok ("", [])
    | some sub =>
      match jsonLoads sub with
      | some data => finishParse data
      | none => .ok ("", [])

/-! ### `load_story` (main.py lines 22-70) -/

/-- Python substring containment (`needle in haystack` on strings). -/
def strHasSub (needle hay : List Char) : Bool :=
  match hay with
  | [] => needle.isEmpty
  | _ :: rest => needle.isPrefixOf hay || strHasSub needle rest

/-- Run a per-element check over a list, stopping at the first error: the
semantics of a Python `for` loop whose body may `raise`. -/
def eachE {α : Type} (f : α → Except PyError Unit) : List α → Except PyError Unit
  | [] => .ok ()
  | x :: rest =>
    match f x with
    | .error e => .error e
    | .ok _ => eachE f rest

/-- First validation loop (lines 33-37): `"text" not in node or not
isinstance(node["text"], str)` raises `ValueError`; `options` must be a list if
present.  On non-dict nodes the Python membership test / indexing raises
`TypeError` (or hits the `ValueError` branch for containers not holding
`"text"`). -/
def checkNode1 (node_id : String) (nodeV : JValue) : Except PyError Unit :=
  match nodeV with
  | .jobj node =>
    (match sGet node "text" with
     | none => .error (.valueError ("Node " ++ node_id ++ " must have string text"))
     | some t =>
       match t with
       | .jstr _ =>
         (match sGet node "options" with
          | some o =>
            (match o with
             | .jarr _ => .ok ()
             | _ => .error (.valueError ("Node " ++ node_id ++ " options must be a list if present")))
          | none => .ok ())
       | _ => .error (.valueError ("Node " ++ node_id ++ " must have string text")))
  | .jstr s =>
    if strHasSub "text".data s.data then .error (.typeError "string indices must be integers")
    else .error (.valueError ("Node " ++ node_id ++ " must have string text"))
  | .jarr xs =>
    if xs.any (fun v => match v with | .jstr s2 => s2 = "text" | _ => false) then
      .error (.typeError "list indices must be integers")
    else .error (.valueError ("Node " ++ node_id ++ " must have string text"))
  | _ => .error (.typeError "argument of type is not iterable")

/-- Reference check for one authored option (lines 41-43): `opt.get("next")`
raises `AttributeError` on non-dicts; the dangling-reference check only fires
for truthy `next` values. -/
def checkOpt (story : List (String × JValue)) (node_id : String) (opt : JValue) :
    Except PyError Unit :=
  match opt with
  | .jobj o =>
    let nxt := pyGet o "next"
    if truthy nxt then
      match memStoryE story nxt with
      | .error e => .error e
      | .ok b =>
        if b then .ok ()
        else .error (.valueError ("Node " ++ node_id ++ " option points to unknown node"))
    else .ok ()
  | _ => .error (.attributeError "object has no attribute get")

/-- Second validation loop (lines 39-43): iterate `node.get("options", [])`.
Iterating a non-list only happens when loop 1 was skipped; non-empty strings and
dicts yield elements without a `get` attribute, other scalars are not
iterable. -/
def checkNode2 (story : List (String × JValue)) (node_id : String) (nodeV : JValue) :
    Except PyError Unit :=
  match nodeV with
  | .jobj node =>
    (match pyGetD node "options" (.jarr []) with
     | .jarr opts => eachE (checkOpt story node_id) opts
     | .jstr s => if s.isEmpty then .ok () else .error (.attributeError "object has no attribute get")
     | .jobj fs => if fs.isEmpty then .ok () else .error (.attributeError "object has no attribute get")
     | _ => .error (.typeError "object is not iterable"))
  | _ => .error (.attributeError "object has no attribute get")

/-- One entry of `next_map` (lines 61-65): must be a string and a story key. -/
def checkNextMapEntry (story : List (String × JValue)) (node_id : String) (t : JValue) :
    Except PyError Unit :=
  match t with
  | .jstr s2 =>
    if (sGet story s2).isSome then .ok ()
    else .error (.valueError ("Node " ++ node_id ++ " next_map points to unknown node"))
  | _ => .error (.valueError ("Node " ++ node_id ++ " next_map entries must be strings"))

/-- `next_map` portion of the third loop (lines 58-65): must be a list of
strings, each a key of the story. -/
def checkNextMap (story : List (String × JValue)) (node_id : String) (nm : JValue) :
    Except PyError Unit :=
  match nm with
  | .jnull => .ok ()
  | .jarr ts => eachE (checkNextMapEntry story node_id) ts
  | _ => .error (.valueError ("Node " ++ node_id ++ " next_map must be a list"))

/-- Third validation loop (lines 45-68): a hinted node without authored options
needs a truthy `next_map` or `next`; `next_map` entries must be story keys;
a non-`None` `next` must be a story key. -/
def checkNode3 (story : List (String × JValue)) (node_id : String) (nodeV : JValue) :
    Except PyError Unit :=
  match nodeV with
  | .jobj node =>
    let has_opts := truthy (pyGet node "options")
    let has_hint := truthy (pyGet node "next_hint")
    let nm := pyGet node "next_map"
    let nxt := pyGet node "next"
    if (!has_opts && has_hint) && (!truthy nm && !truthy nxt) then
      .error (.valueError ("Node " ++ node_id ++ " has next_hint but no next_map or next to route choices"))
    else
      match checkNextMap story node_id nm with
      | .error e => .error e
      | .ok _ =>
        match nxt with
        | .jnull => .ok ()
        | v =>
          match memStoryE story v with
          | .error e => .error e
          | .ok b =>
            if b then .ok ()
            else .error (.valueError ("Node " ++ node_id ++ " next points to unknown node"))
  | _ => .error (.attributeError "object has no attribute get")

/-- Validation applied to the parsed story JSON (lines 30-70). -/
def validate_story (v : JValue) : Except PyError (List (String × JValue)) :=
  match v with
  | .jobj story =>
    (match eachE (fun p => checkNode1 p.1 p.2) story with
     | .error e => .error e
     | .ok _ =>
       match eachE (fun p => checkNode2 story p.1 p.2) story with
       | .error e => .error e
       | .ok _ =>
         match eachE (fun p => checkNode3 story p.1 p.2) story with
         | .error e => .error e
         | .ok _ => .ok story)
  | _ => .error (.valueError "Top-level story JSON must be an object mapping id to node")

/-- main.py `load_story` (lines 22-70): the file is either missing
(`FileNotFoundError`) or read as a string; `json.loads` failure raises
`ValueError`; then the three validation loops run. -/
def load_story (file : Option String) : Except PyError (List (String × JValue)) :=
  match file with
  | none => .error (.fileNotFoundError "Story file not found")
  | some content =>
    match jsonLoads content with
    | none => .error (.valueError "Story file is not valid JSON")
    | some v => validate_story v

/-! ### `show_node` and the `work`/`update` closures (main.py lines 134-220) -/

/-- Synchronous result of `show_node`: either text plus a button list is shown
immediately, or the generating indicator is shown and a background `work`
thread is started with the node text and hint. -/
inductive Outcome where
  | shown : JValue → JValue → Outcome
  | generating : JValue → JValue → Outcome

/-- main.py `show_node` synchronous part (lines 134-176): `story[node_id]`
raises `KeyError` on a missing key; authored options are shown verbatim when
truthy; otherwise an empty hint shows the text with zero buttons; otherwise the
generating indicator is rendered (string concatenation requires a string
`text`) and generation is dispatched. -/
def show_node (story : List (String × JValue)) (node_id : String) :
    Except PyError Outcome :=
  match sGet story node_id with
  | none => .error (.keyError node_id)
  | some nodeV =>
    match nodeV with
    | .jobj node =>
      let opts := pyGetD node "options" (.jarr [])
      if truthy opts then
        match sGet node "text" with
        | none => .error (.keyError "text")
        | some t => .ok (.shown t opts)
      else
        let hint := pyGetD node "next_hint" (.jstr "")
        if !truthy hint then
          match sGet node "text" with
          | none => .error (.keyError "text")
          | some t => .ok (.shown t (.jarr []))
        else
          match sGet node "text" with
          | none => .error (.keyError "text")
          | some (.jstr t) => .ok (.generating (.jstr t) hint)
          | some _ => .error (.typeError "can only concatenate str to str")
    | _ => .error (.attributeError "object has no attribute get")

/-- main.py `build_ui` starts navigation at the fixed entry identifier
`"start"` (line 245). -/
def build_ui_initial (story : List (String × JValue)) : Except PyError Outcome :=
  show_node story "start"

/-- A wired choice button: the dicts built in `work` with keys `label` and
`next`. -/
structure Choice where
  label : String
  next : String
  deriving DecidableEq

/-- Routing targets chosen in `work` (lines 186-191): a present, list-valued,
non-empty `next_map` is filtered to its string entries; else a string `next` is
replicated; else the node id itself is replicated. -/
def work_targets (node : List (String × JValue)) (node_id : String)
    (ai_opts : List String) : List String :=
  match sGet node "next_map" with
  | some (.jarr (x :: xs)) => (x :: xs).filterMap strOfJ
  | _ =>
    match sGet node "next" with
    | some (.jstr t) => List.replicate (max 1 ai_opts.length) t
    | _ => List.replicate (max 1 ai_opts.length) node_id

/-- Index-wise mapping of generated labels onto targets (lines 193-196): label
`i` is kept iff `i` is within `targets` and the target is a story key. -/
def work_mapped (story : List (String × JValue)) (ai_opts targets : List String) :
    List Choice :=
  match ai_opts, targets with
  | [], _ => []
  | _ :: _, [] => []
  | l :: ls, t :: ts =>
    if (sGet story t).isSome then Choice.mk l t :: work_mapped story ls ts
    else work_mapped story ls ts

/-- Button list chosen by the `update` closure (lines 209-216): the first two
mapped choices; else the raw labels self-looped to the current node; else a
single synthesized Continue choice self-looped to the current node. -/
def update_buttons (mapped : List Choice) (ai_opts : List String) (node_id : String) :
    List Choice :=
  match mapped with
  | _ :: _ => mapped.take 2
  | [] =>
    match ai_opts with
    | [] => [Choice.mk "Continue" node_id]
    | a :: rest =>
      Choice.mk a node_id ::
        (match rest with
         | [] => []
         | b :: _ => [Choice.mk b node_id])

/-- Diagnostic lines appended by `update` (lines 200-206). -/
def work_debug (node : List (String × JValue)) (ai_opts : List String) : List String :=
  (if ai_opts.isEmpty then ["\n\n[Debug] No options parsed from model output."] else []) ++
  (if (sGet node "next_map").isSome && !truthy (pyGet node "next_map") then
     ["[Debug] Node has empty next_map."] else []) ++
  (if (sGet node "next").isNone && (sGet node "next_map").isNone then
     ["[Debug] Node has no next/next_map; using loopback."] else [])

/-- The `work` closure (lines 178-217) given the outcome of the bridge call:
`node["text"]` is read first (line 181), the raw output is parsed, targets are
mapped, and the text/button update is computed; any raised error is caught by
the `except` clause. -/
def work_result (story : List (String × JValue)) (node_id : String)
    (node : List (String × JValue)) (gen : Except PyError String) :
    Except PyError (String × List Choice) :=
  match sGet node "text" with
  | none => .error (.keyError "text")
  | some nt =>
    match gen with
    | .error e => .error e
    | .ok out =>
      match parse_scene_and_options_json out with
      | .error e => .error e
      | .ok (scene, ai_opts) =>
        let targets := work_targets node node_id ai_opts
        let mapped := work_mapped story ai_opts targets
        match nt with
        | .jstr ntext =>
          .ok (ntext ++ "\n\n" ++ scene ++
                 String.join ((work_debug node ai_opts).map (fun d => "\n" ++ d)),
               update_buttons mapped ai_opts node_id)
        | _ => .error (.typeError "can only concatenate str to str")

/-- Presented state owned by the foreground: displayed text and wired
buttons. -/
structure UIState where
  text : String
  choices : List Choice
  deriving DecidableEq

/-- Delivery of the background result to the foreground (lines 199-219): a
successful update replaces the presented state; a caught error shows an error
dialog and leaves the presented state untouched. -/
def apply_work (st : UIState) (res : Except PyError (String × List Choice)) :
    UIState × Option String :=
  match res with
  | .ok p => (UIState.mk p.1 p.2, none)
  | .error e => (st, some (pyMsg e))

/-! ### Reference sets of a story graph -/

/-- String identifiers referenced by the `next` fields of an authored options
value. -/
def optNextRefs (optsV : JValue) : List String :=
  match optsV with
  | .jarr opts =>
    opts.filterMap (fun o =>
      match o with
      | .jobj od =>
        (match sGet od "next" with
         | some (.jstr t) => some t
         | _ => none)
      | _ => none)
  | _ => []

/-- As `optNextRefs`, but only the truthy (non-empty) identifiers: exactly the
ones the validator's `if nxt` test inspects. -/
def optNextRefsTruthy (optsV : JValue) : List String :=
  (optNextRefs optsV).filter (fun t => t ≠ "")

/-- All string node identifiers referenced by one node through
`options[].next`, `next` and `next_map[]`. -/
def nodeRefs (nodeV : JValue) : List String :=
  match nodeV with
  | .jobj node =>
    optNextRefs (pyGetD node "options" (.jarr [])) ++
    (match sGet node "next" with
     | some (.jstr t) => [t]
     | _ => []) ++
    (match sGet node "next_map" with
     | some (.jarr ts) => ts.filterMap strOfJ
     | _ => [])
  | _ => []

/-- As `nodeRefs`, but with only the truthy `options[].next` identifiers. -/
def nodeRefsTruthy (nodeV : JValue) : List String :=
  match nodeV with
  | .jobj node =>
    optNextRefsTruthy (pyGetD node "options" (.jarr [])) ++
    (match sGet node "next" with
     | some (.jstr t) => [t]
     | _ => []) ++
    (match sGet node "next_map" with
     | some (.jarr ts) => ts.filterMap strOfJ
     | _ => [])
  | _ => []

/-- All identifiers referenced anywhere in a story graph. -/
def storyRefs (s : List (String × JValue)) : List String :=
  (s.map (fun p => nodeRefs p.2)).flatten

/-- All identifiers referenced anywhere in a story graph, restricted to truthy
`options[].next` references. -/
def storyRefsTruthy (s : List (String × JValue)) : List String :=
  (s.map (fun p => nodeRefsTruthy p.2)).flatten

/-- A node value that is a dict, whose `next` is hashable, and whose authored
options, when present as a list, are all dicts with hashable `next` fields. -/
def nodeShapeB (nodeV : JValue) : Bool :=
  match nodeV with
  | .jobj node =>
    jHashable (pyGet node "next") &&
    (match sGet node "options" with
     | some (.jarr xs) =>
       xs.all (fun o =>
         match o with
         | .jobj od => jHashable (pyGet od "next")
         | _ => false)
     | _ => true)
  | _ => false

/-- A parsed story document whose nodes (and their authored options) are
mappings with hashable `next` fields, so that the only shape errors the
validator can hit are its own explicit `ValueError` checks. -/
def wellShapedB (v : JValue) : Bool :=
  match v with
  | .jobj story => story.all (fun p => nodeShapeB p.2)
  | _ => true

/-! ### Concrete story fixtures used to exercise the theorems -/

/-- Story text with a hinted node `a` carrying `next_map = ["b", "c"]`. -/
def c1text : String :=
  "\x7b\"a\": \x7b\"text\": \"t\", \"next_hint\": \"h\", \"next_map\": [\"b\", \"c\"]\x7d, \"b\": \x7b\"text\": \"t\"\x7d, \"c\": \x7b\"text\": \"t\"\x7d\x7d"

/-- The hinted node of `c1text`. -/
def c1node : List (String × JValue) :=
  [("text", .jstr "t"), ("next_hint", .jstr "h"),
   ("next_map", .jarr [.jstr "b", .jstr "c"])]

/-- The story graph parsed from `c1text`. -/
def c1story : List (String × JValue) :=
  [("a", .jobj c1node), ("b", .jobj [("text", .jstr "t")]),
   ("c", .jobj [("text", .jstr "t")])]

/-- Story text whose only node has an authored option with `next = ""`. -/
def c2text : String :=
  "\x7b\"start\": \x7b\"text\": \"t\", \"options\": [\x7b\"label\": \"go\", \"next\": \"\"\x7d]\x7d\x7d"

/-- The story graph parsed from `c2text`. -/
def c2story : List (String × JValue) :=
  [("start", .jobj [("text", .jstr "t"),
    ("options", .jarr [.jobj [("label", .jstr "go"), ("next", .jstr "")]])])]

/-- Story text with a node `a` whose `next` is `b`. -/
def w2text : String :=
  "\x7b\"a\": \x7b\"text\": \"t\", \"next\": \"b\"\x7d, \"b\": \x7b\"text\": \"u\"\x7d\x7d"

/-- The story graph parsed from `w2text`. -/
def w2story : List (String × JValue) :=
  [("a", .jobj [("text", .jstr "t"), ("next", .jstr "b")]),
   ("b", .jobj [("text", .jstr "u")])]

/-- Raw model output with stray text around the JSON payload. -/
def c4noise : String :=
  "noise \x7b\"scene\":\"S\",\"options\":[\"A\",\"B\"]\x7d trailing"

/-- An authored-terminal node that also carries hint and routing fields. -/
def c5node : List (String × JValue) :=
  [("text", .jstr "T"),
   ("options", .jarr [.jobj [("label", .jstr "L"), ("next", .jstr "a")]]),
   ("next_hint", .jstr "h"), ("next", .jstr "a"),
   ("next_map", .jarr [.jstr "a"])]

/-- A one-node story around `c5node`. -/
def c5story : List (String × JValue) := [("a", .jobj c5node)]

/-- A terminal node: no options, no hint. -/
def c7node : List (String × JValue) := [("text", .jstr "T")]

/-- A one-node story around `c7node`. -/
def c7story : List (String × JValue) := [("a", .jobj c7node)]

/-- Story text for a valid graph that has no "start" key. -/
def c10text : String := "\x7b\"a\": \x7b\"text\": \"t\"\x7d\x7d"

/-- The story graph parsed from `c10text`. -/
def c10story : List (String × JValue) := [("a", .jobj [("text", .jstr "t")])]

/-! ### Basic lemmas -/

theorem eachE_ok {α : Type} {f : α → Except PyError Unit} {xs : List α}
    (h : eachE f xs = .ok ()) : ∀ x ∈ xs, f x = .ok () := by
  induction xs with
  | nil => intro x hx; cases hx
  | cons a rest ih =>
    intro x hx
    unfold eachE at h
    cases hfa : f a with
    | error e => rw [hfa] at h; cases h
    | ok u =>
      rw [hfa] at h
      cases hx with
      | head => cases u; exact hfa
      | tail _ hmem => exact ih h x hmem

theorem eachE_err {α : Type} {f : α → Except PyError Unit} {xs : List α} {e : PyError}
    (h : eachE f xs = .error e) : ∃ x ∈ xs, f x = .error e := by
  induction xs with
  | nil => cases h
  | cons a rest ih =>
    unfold eachE at h
    cases hfa : f a with
    | error e2 =>
      rw [hfa] at h
      cases h
      exact ⟨a, List.mem_cons_self a rest, hfa⟩
    | ok u =>
      rw [hfa] at h
      obtain ⟨x, hmem, hx⟩ := ih h
      exact ⟨x, List.mem_cons_of_mem a hmem, hx⟩

theorem sGet_mem {l : List (String × JValue)} {k : String} {v : JValue}
    (h : sGet l k = some v) : (k, v) ∈ l := by
  induction l with
  | nil => cases h
  | cons p rest ih =>
    obtain ⟨k2, v2⟩ := p
    unfold sGet at h
    by_cases hk : k2 = k
    · rw [if_pos hk] at h
      cases h
      subst hk
      exact List.mem_cons_self _ _
    · rw [if_neg hk] at h
      exact List.mem_cons_of_mem _ (ih h)

theorem sGet_isSome_of_mem {l : List (String × JValue)} {k : String} {v : JValue}
    (h : (k, v) ∈ l) : (sGet l k).isSome = true := by
  induction l with
  | nil => cases h
  | cons p rest ih =>
    obtain ⟨k2, v2⟩ := p
    unfold sGet
    by_cases hk : k2 = k
    · rw [if_pos hk]; rfl
    · rw [if_neg hk]
      cases h with
      | head => exact absurd rfl hk
      | tail _ hmem => exact ih hmem

/-! ### Decomposition of a successful load -/

theorem validate_story_ok {v : JValue} {s : List (String × JValue)}
    (h : validate_story v = .ok s) :
    v = .jobj s ∧
    eachE (fun p => checkNode1 p.1 p.2) s = .ok () ∧
    eachE (fun p => checkNode2 s p.1 p.2) s = .ok () ∧
    eachE (fun p => checkNode3 s p.1 p.2) s = .ok () := by
  cases v with
  | jobj story =>
    simp only [validate_story] at h
    cases h1 : eachE (fun p => checkNode1 p.1 p.2) story with
    | error e => rw [h1] at h; cases h
    | ok u1 =>
      rw [h1] at h
      cases h2 : eachE (fun p => checkNode2 story p.1 p.2) story with
      | error e => rw [h2] at h; cases h
      | ok u2 =>
        rw [h2] at h
        cases h3 : eachE (fun p => checkNode3 story p.1 p.2) story with
        | error e => rw [h3] at h; cases h
        | ok u3 =>
          rw [h3] at h
          cases h
          cases u1; cases u2; cases u3
          exact ⟨rfl, h1, h2, h3⟩
  | jnull => cases h
  | jbool b => cases h
  | jnum q => cases h
  | jstr s2 => cases h
  | jarr xs => cases h

theorem load_story_ok {f : Option String} {s : List (String × JValue)}
    (h : load_story f = .ok s) :
    ∃ c v, f = some c ∧ jsonLoads c = some v ∧ validate_story v = .ok s := by
  cases f with
  | none => cases h
  | some c =>
    simp only [load_story] at h
    cases hj : jsonLoads c with
    | none => rw [hj] at h; cases h
    | some v =>
      rw [hj] at h
      exact ⟨c, v, rfl, hj, h⟩

/-! ### Consequences of the per-node checks -/

theorem checkNextMap_ok_entries {story : List (String × JValue)} {nid : String}
    {ts : List JValue} (h : checkNextMap story nid (.jarr ts) = .ok ()) :
    ∀ t ∈ ts, ∃ s2, t = .jstr s2 ∧ (sGet story s2).isSome = true := by
  simp only [checkNextMap] at h
  intro t ht
  have hx := eachE_ok h t ht
  cases t with
  | jstr s2 =>
    refine ⟨s2, rfl, ?_⟩
    by_contra hmem
    simp only [Bool.not_eq_true] at hmem
    simp only [checkNextMapEntry, hmem] at hx
    simp at hx
  | jnull => cases hx
  | jbool b => cases hx
  | jnum q => cases hx
  | jarr xs => cases hx
  | jobj fs => cases hx

theorem checkNode3_ok_parts {story : List (String × JValue)} {nid : String}
    {node : List (String × JValue)}
    (h : checkNode3 story nid (.jobj node) = .ok ()) :
    checkNextMap story nid (pyGet node "next_map") = .ok () ∧
    (∀ t, pyGet node "next" = .jstr t → (sGet story t).isSome = true) := by
  simp only [checkNode3] at h
  split at h
  · cases h
  · cases hnm : checkNextMap story nid (pyGet node "next_map") with
    | error e => rw [hnm] at h; cases h
    | ok u =>
      cases u
      refine ⟨rfl, ?_⟩
      rw [hnm] at h
      intro t hnext
      rw [hnext] at h
      have h2 : (match memStoryE story (JValue.jstr t) with
          | Except.error e => Except.error e
          | Except.ok b =>
            if b = true then Except.ok ()
            else Except.error
              (PyError.valueError ("Node " ++ nid ++ " next points to unknown node"))) =
          Except.ok () := h
      clear h
      rw [show memStoryE story (JValue.jstr t) =
        Except.ok (sGet story t).isSome from rfl] at h2
      by_contra hmem
      simp only [Bool.not_eq_true] at hmem
      rw [hmem] at h2
      simp at h2

theorem work_mapped_zip {story : List (String × JValue)} :
    ∀ (opts targets : List String),
      (∀ t ∈ targets, (sGet story t).isSome = true) →
      work_mapped story opts targets =
        (opts.zip targets).map (fun p => Choice.mk p.1 p.2) := by
  intro opts
  induction opts with
  | nil => intro targets _; cases targets <;> rfl
  | cons l ls ih =>
    intro targets h
    cases targets with
    | nil => rfl
    | cons t ts =>
      have ht : (sGet story t).isSome = true := h t (List.mem_cons_self _ _)
      have hrest := ih ts (fun x hx => h x (List.mem_cons_of_mem _ hx))
      simp only [work_mapped, ht, if_pos, List.zip_cons_cons, List.map_cons]
      rw [hrest]

theorem work_mapped_const {story : List (String × JValue)} {t : String}
    (ht : (sGet story t).isSome = true) :
    ∀ (opts : List String) (m : Nat), opts.length ≤ m →
      work_mapped story opts (List.replicate m t) =
        opts.map (fun l => Choice.mk l t) := by
  intro opts
  induction opts with
  | nil => intro m _; cases m <;> rfl
  | cons l ls ih =>
    intro m hm
    cases m with
    | zero => simp at hm
    | succ m2 =>
      rw [List.replicate_succ]
      simp only [work_mapped, ht, if_pos, List.map_cons]
      rw [ih m2 (Nat.le_of_succ_le_succ (by simpa using hm))]

theorem all_jstr_filterMap {P : String → Prop} :
    ∀ {ts : List JValue}, (∀ t ∈ ts, ∃ s2, t = .jstr s2 ∧ P s2) →
      ∃ strs, ts = strs.map JValue.jstr ∧ ts.filterMap strOfJ = strs ∧
        ∀ x ∈ strs, P x := by
  intro ts
  induction ts with
  | nil => exact fun _ => ⟨[], rfl, rfl, by simp⟩
  | cons t rest ih =>
    intro h
    obtain ⟨s2, ht, hp⟩ := h t (List.mem_cons_self _ _)
    subst ht
    obtain ⟨strs, heq, hfm, hall⟩ := ih (fun x hx => h x (List.mem_cons_of_mem _ hx))
    refine ⟨s2 :: strs, by rw [List.map_cons, ← heq], ?_, ?_⟩
    · simp only [List.filterMap_cons, strOfJ]
      rw [hfm]
    · intro x hx
      cases hx with
      | head => exact hp
      | tail _ hx2 => exact hall x hx2

theorem checkNode1_ok_shape {nid : String} {v : JValue}
    (h : checkNode1 nid v = .ok ()) :
    ∃ node, v = .jobj node ∧ (∃ t, sGet node "text" = some (.jstr t)) ∧
      ∀ o, sGet node "options" = some o → ∃ xs, o = .jarr xs := by
  cases v with
  | jobj node =>
    refine ⟨node, rfl, ?_, ?_⟩
    · simp only [checkNode1] at h
      cases htext : sGet node "text" with
      | none => rw [htext] at h; cases h
      | some t =>
        rw [htext] at h
        cases t with
        | jstr t2 => exact ⟨t2, rfl⟩
        | jnull => cases h
        | jbool b => cases h
        | jnum q => cases h
        | jarr xs => cases h
        | jobj fs => cases h
    · simp only [checkNode1] at h
      intro o ho
      cases htext : sGet node "text" with
      | none => rw [htext] at h; cases h
      | some t =>
        rw [htext] at h
        cases t with
        | jstr t2 =>
          rw [ho] at h
          cases o with
          | jarr xs => exact ⟨xs, rfl⟩
          | jnull => cases h
          | jbool b => cases h
          | jnum q => cases h
          | jstr s3 => cases h
          | jobj fs => cases h
        | jnull => cases h
        | jbool b => cases h
        | jnum q => cases h
        | jarr xs => cases h
        | jobj fs => cases h
  | jnull => cases h
  | jbool b => cases h
  | jnum q => cases h
  | jstr s2 =>
    simp only [checkNode1] at h
    split at h <;> cases h
  | jarr xs =>
    simp only [checkNode1] at h
    split at h <;> cases h

theorem checkOpt_ok_ref {story : List (String × JValue)} {nid : String}
    {o : List (String × JValue)} (h : checkOpt story nid (.jobj o) = .ok ()) :
    ∀ t, sGet o "next" = some (.jstr t) → t ≠ "" → (sGet story t).isSome = true := by
  intro t hnext hne
  simp only [checkOpt] at h
  rw [show pyGet o "next" = JValue.jstr t by simp [pyGet, hnext]] at h
  rw [show truthy (JValue.jstr t) = true by simp [truthy, hne]] at h
  rw [if_pos rfl] at h
  rw [show memStoryE story (JValue.jstr t) =
    Except.ok (sGet story t).isSome from rfl] at h
  by_contra hmem
  simp only [Bool.not_eq_true] at hmem
  rw [hmem] at h
  simp at h

theorem checkNode2_ok_refs {story : List (String × JValue)} {nid : String}
    {node : List (String × JValue)}
    (h : checkNode2 story nid (.jobj node) = .ok ()) :
    ∀ r ∈ optNextRefsTruthy (pyGetD node "options" (.jarr [])),
      (sGet story r).isSome = true := by
  intro r hr
  simp only [optNextRefsTruthy, List.mem_filter] at hr
  obtain ⟨hr1, hr2⟩ := hr
  have hne : r ≠ "" := by simpa using hr2
  simp only [checkNode2] at h
  cases hov : pyGetD node "options" (.jarr []) with
  | jarr opts =>
    rw [hov] at h hr1
    simp only [optNextRefs, List.mem_filterMap] at hr1
    obtain ⟨o, ho, hfo⟩ := hr1
    have hco := eachE_ok h o ho
    cases o with
    | jobj od =>
      have hfo2 : (match sGet od "next" with
          | some (JValue.jstr t) => some t
          | _ => none) = some r := hfo
      clear hfo
      cases hnext : sGet od "next" with
      | none => rw [hnext] at hfo2; cases hfo2
      | some v =>
        rw [hnext] at hfo2
        cases v with
        | jstr t =>
          simp only [Option.some.injEq] at hfo2
          subst hfo2
          exact checkOpt_ok_ref hco t hnext hne
        | jnull => cases hfo2
        | jbool b => cases hfo2
        | jnum q => cases hfo2
        | jarr xs => cases hfo2
        | jobj fs => cases hfo2
    | jnull => cases hfo
    | jbool b => cases hfo
    | jnum q => cases hfo
    | jstr s2 => cases hfo
    | jarr xs => cases hfo
  | jnull => rw [hov] at hr1; cases hr1
  | jbool b => rw [hov] at hr1; cases hr1
  | jnum q => rw [hov] at hr1; cases hr1
  | jstr s2 => rw [hov] at hr1; cases hr1
  | jobj fs => rw [hov] at hr1; cases hr1

theorem nodeRefsTruthy_covered {story : List (String × JValue)} {nid : String}
    {node : List (String × JValue)}
    (h2 : checkNode2 story nid (.jobj node) = .ok ())
    (h3 : checkNode3 story nid (.jobj node) = .ok ()) :
    ∀ r ∈ nodeRefsTruthy (.jobj node), (sGet story r).isSome = true := by
  intro r hr
  simp only [nodeRefsTruthy] at hr
  rcases List.mem_append.mp hr with hr12 | hrnm
  · rcases List.mem_append.mp hr12 with hropt | hrnext
    · exact checkNode2_ok_refs h2 r hropt
    · cases hnext : sGet node "next" with
      | none => rw [hnext] at hrnext; cases hrnext
      | some v =>
        rw [hnext] at hrnext
        cases v with
        | jstr t =>
          have : r = t := by simpa using hrnext
          subst this
          exact (checkNode3_ok_parts h3).2 r (by simp [pyGet, hnext])
        | jnull => cases hrnext
        | jbool b => cases hrnext
        | jnum q => cases hrnext
        | jarr xs => cases hrnext
        | jobj fs => cases hrnext
  · cases hnm : sGet node "next_map" with
    | none => rw [hnm] at hrnm; cases hrnm
    | some v =>
      rw [hnm] at hrnm
      cases v with
      | jarr ts =>
        have hcm : checkNextMap story nid (.jarr ts) = .ok () := by
          have := (checkNode3_ok_parts h3).1
          rwa [show pyGet node "next_map" = JValue.jarr ts by simp [pyGet, hnm]] at this
        have hentries := checkNextMap_ok_entries hcm
        simp only [List.mem_filterMap] at hrnm
        obtain ⟨t, ht, hto⟩ := hrnm
        obtain ⟨s2, rfl, hsome⟩ := hentries t ht
        simp only [strOfJ, Option.some.injEq] at hto
        subst hto
        exact hsome
      | jnull => cases hrnm
      | jbool b => cases hrnm
      | jnum q => cases hrnm
      | jstr s3 => cases hrnm
      | jobj fs => cases hrnm

/-! ### Lemmas about stripping and the parse pipeline -/

theorem dropWhile_cons_head {α : Type} {p : α → Bool} {l : List α} {c : α} {t : List α}
    (h : List.dropWhile p l = c :: t) : p c = false := by
  induction l with
  | nil => cases h
  | cons x xs ih =>
    rw [List.dropWhile_cons] at h
    by_cases hx : p x = true
    · rw [if_pos hx] at h; exact ih h
    · rw [if_neg hx] at h
      cases h
      simpa using hx

theorem stripList_eq_rdrop (cs : List Char) :
    stripList cs = List.rdropWhile isPyWs (List.dropWhile isPyWs cs) := rfl

theorem stripList_idem (cs : List Char) : stripList (stripList cs) = stripList cs := by
  rw [stripList_eq_rdrop, stripList_eq_rdrop]
  have h1 : List.dropWhile isPyWs (List.rdropWhile isPyWs (List.dropWhile isPyWs cs)) =
      List.rdropWhile isPyWs (List.dropWhile isPyWs cs) := by
    rcases hcase : List.rdropWhile isPyWs (List.dropWhile isPyWs cs) with _ | ⟨c, t⟩
    · rfl
    · have hpre := List.rdropWhile_prefix isPyWs (List.dropWhile isPyWs cs)
      rw [hcase] at hpre
      obtain ⟨u, hu⟩ := hpre
      have hc : isPyWs c = false := @dropWhile_cons_head Char isPyWs cs c (t ++ u) (by
        rw [show List.dropWhile isPyWs cs = c :: (t ++ u) from hu.symm])
      rw [List.dropWhile_cons_of_neg (by simp [hc])]
  rw [h1, List.rdropWhile_idempotent]

theorem pyStrip_idem (s : String) : pyStrip (pyStrip s) = pyStrip s := by
  unfold pyStrip
  rw [show (String.mk (stripList s.data)).data = stripList s.data from rfl]
  rw [stripList_idem]

theorem finishParse_ok_parts {v : JValue} {r : String × List String}
    (h : finishParse v = .ok r) :
    ∃ (a : String) (bs : List String),
      r = (pyStrip a, bs.map pyStrip) ∧ bs.length ≤ 2 := by
  cases v with
  | jobj fs =>
    simp only [finishParse] at h
    cases h
    refine ⟨(match pyGetD fs "scene" (JValue.jstr "") with
             | JValue.jstr s2 => s2
             | _ => ""),
            (match jStrList (pyGetD fs "options" (JValue.jarr [])) with
             | some xs => xs
             | none => []).take 2, rfl, ?_⟩
    exact List.length_take_le 2 _
  | jnull => cases h
  | jbool b => cases h
  | jnum q => cases h
  | jstr s2 => cases h
  | jarr xs => cases h

theorem parse_ok_parts {s : String} {r : String × List String}
    (h : parse_scene_and_options_json s = .ok r) :
    ∃ (a : String) (bs : List String),
      r = (pyStrip a, bs.map pyStrip) ∧ bs.length ≤ 2 := by
  unfold parse_scene_and_options_json at h
  cases hj : jsonLoads s with
  | some data =>
    rw [hj] at h
    exact finishParse_ok_parts h
  | none =>
    rw [hj] at h
    cases hb : braceSpan s with
    | none =>
      rw [hb] at h
      cases h
      exact ⟨"", [], rfl, by simp⟩
    | some sub =>
      rw [hb] at h
      have h2 : (match jsonLoads sub with
          | some data => finishParse data
          | none => Except.ok (("" : String), ([] : List String))) = Except.ok r := h
      clear h
      cases hj2 : jsonLoads sub with
      | some data =>
        rw [hj2] at h2
        exact finishParse_ok_parts h2
      | none =>
        rw [hj2] at h2
        cases h2
        exact ⟨"", [], rfl, by simp⟩

theorem parseMembers_jobj :
    ∀ (f : Nat) (cs : List Char) (acc : List (String × JValue)) (v : JValue)
      (r : List Char), parseMembers f cs acc = some (v, r) → ∃ fs, v = .jobj fs := by
  intro f
  induction f with
  | zero => intro cs acc v r h; cases h
  | succ n ih =>
    intro cs acc v r h
    unfold parseMembers at h
    repeat' split at h
    all_goals try cases h
    all_goals first
      | exact ⟨_, rfl⟩
      | exact ih _ _ _ _ h

theorem parseVal_succ_brace (f : Nat) (rest : List Char) :
    parseVal (f + 1) ('\x7b' :: rest) =
      (match skipWs rest with
       | '\x7d' :: r => some (JValue.jobj [], r)
       | cs2 => parseMembers f cs2 []) := rfl

theorem jsonLoads_brace_jobj {cs : List Char} {v : JValue}
    (h : jsonLoads (String.mk ('\x7b' :: cs)) = some v) : ∃ fs, v = .jobj fs := by
  unfold jsonLoads at h
  rw [show (String.mk ('\x7b' :: cs)).length + 2 = cs.length + 2 + 1 from rfl] at h
  rw [show (String.mk ('\x7b' :: cs)).data = '\x7b' :: cs from rfl] at h
  rw [parseVal_succ_brace] at h
  cases hm : (match skipWs cs with
      | '\x7d' :: r => some (JValue.jobj [], r)
      | cs2 => parseMembers (cs.length + 2) cs2 []) with
  | none => rw [hm] at h; cases h
  | some pr =>
    rw [hm] at h
    obtain ⟨v2, r⟩ := pr
    have hv2 : ∃ fs, v2 = .jobj fs := by
      split at hm
      · cases hm; exact ⟨[], rfl⟩
      · exact parseMembers_jobj _ _ _ _ _ hm
    have h3 : (if (skipWs r).isEmpty = true then some v2 else none) = some v := h
    by_cases hemp : (skipWs r).isEmpty = true
    · rw [if_pos hemp] at h3
      cases h3
      exact hv2
    · rw [if_neg hemp] at h3
      cases h3

theorem braceSpan_shape {s sub : String} (h : braceSpan s = some sub) :
    ∃ cs, sub = String.mk ('\x7b' :: cs) := by
  unfold braceSpan at h
  cases hd : s.data.dropWhile (fun c => c ≠ '\x7b') with
  | nil => rw [hd] at h; cases h
  | cons b cs =>
    rw [hd] at h
    have hb : b = '\x7b' := by
      have := dropWhile_cons_head hd
      simpa using this
    subst hb
    have h3 : (match (cs.reverse.dropWhile (fun c => c ≠ '\x7d')).reverse with
        | [] => none
        | body => some (String.mk ('\x7b' :: body))) = some sub := h
    clear h
    cases hbody : (cs.reverse.dropWhile (fun c => c ≠ '\x7d')).reverse with
    | nil => rw [hbody] at h3; cases h3
    | cons c2 t2 =>
      rw [hbody] at h3
      cases h3
      exact ⟨_, rfl⟩

/-! ### Error kinds raised by the validator -/

theorem checkNextMapEntry_err_kind {story : List (String × JValue)} {nid : String}
    {t : JValue} {e : PyError} (h : checkNextMapEntry story nid t = .error e) :
    e.kind = .valueErr := by
  cases t with
  | jstr s2 =>
    simp only [checkNextMapEntry] at h
    split at h
    · cases h
    · cases h; rfl
  | jnull => cases h; rfl
  | jbool b => cases h; rfl
  | jnum q => cases h; rfl
  | jarr xs => cases h; rfl
  | jobj fs => cases h; rfl

theorem checkNextMap_err_kind {story : List (String × JValue)} {nid : String}
    {nm : JValue} {e : PyError} (h : checkNextMap story nid nm = .error e) :
    e.kind = .valueErr := by
  cases nm with
  | jnull => cases h
  | jarr ts =>
    simp only [checkNextMap] at h
    obtain ⟨t, _, ht⟩ := eachE_err h
    exact checkNextMapEntry_err_kind ht
  | jbool b => cases h; rfl
  | jnum q => cases h; rfl
  | jstr s2 => cases h; rfl
  | jobj fs => cases h; rfl

theorem checkNode1_jobj_err {nid : String} {node : List (String × JValue)} {e : PyError}
    (h : checkNode1 nid (.jobj node) = .error e) : e.kind = .valueErr := by
  simp only [checkNode1] at h
  repeat' split at h
  all_goals cases h
  all_goals rfl

theorem checkNode1_err_kind {nid : String} {v : JValue} {e : PyError}
    (h : checkNode1 nid v = .error e) :
    e.kind = .valueErr ∨ e.kind = .typeErr := by
  cases v with
  | jobj node => exact Or.inl (checkNode1_jobj_err h)
  | jstr s2 =>
    simp only [checkNode1] at h
    split at h
    · cases h; simp [PyError.kind]
    · cases h; simp [PyError.kind]
  | jarr xs =>
    simp only [checkNode1] at h
    split at h
    · cases h; simp [PyError.kind]
    · cases h; simp [PyError.kind]
  | jnull => cases h; simp [PyError.kind]
  | jbool b => cases h; simp [PyError.kind]
  | jnum q => cases h; simp [PyError.kind]

theorem memStoryE_err_kind {story : List (String × JValue)} {v : JValue}
    {e : PyError} (h : memStoryE story v = .error e) : e.kind = .typeErr := by
  cases v with
  | jarr xs => cases h; rfl
  | jobj fs => cases h; rfl
  | jnull => cases h
  | jbool b => cases h
  | jnum q => cases h
  | jstr s2 => cases h

theorem memStoryE_hashable {story : List (String × JValue)} {v : JValue}
    (hh : jHashable v = true) : ∃ b, memStoryE story v = .ok b := by
  cases v with
  | jarr xs => cases hh
  | jobj fs => cases hh
  | jnull => exact ⟨false, rfl⟩
  | jbool b => exact ⟨false, rfl⟩
  | jnum q => exact ⟨false, rfl⟩
  | jstr s2 => exact ⟨_, rfl⟩

theorem checkOpt_jobj_err {story : List (String × JValue)} {nid : String}
    {od : List (String × JValue)} {e : PyError}
    (h : checkOpt story nid (.jobj od) = .error e) :
    e.kind = .valueErr ∨ e.kind = .typeErr := by
  simp only [checkOpt] at h
  split at h
  · cases hm : memStoryE story (pyGet od "next") with
    | error e2 =>
      rw [hm] at h
      cases h
      exact Or.inr (memStoryE_err_kind hm)
    | ok b =>
      rw [hm] at h
      have h2 : (if b = true then Except.ok ()
          else Except.error
            (PyError.valueError ("Node " ++ nid ++ " option points to unknown node"))) =
          Except.error e := h
      split at h2
      · cases h2
      · cases h2; exact Or.inl rfl
  · cases h

theorem checkOpt_shaped_err {story : List (String × JValue)} {nid : String}
    {od : List (String × JValue)} {e : PyError}
    (hh : jHashable (pyGet od "next") = true)
    (h : checkOpt story nid (.jobj od) = .error e) : e.kind = .valueErr := by
  simp only [checkOpt] at h
  split at h
  · obtain ⟨b, hm⟩ := @memStoryE_hashable story _ hh
    rw [hm] at h
    have h2 : (if b = true then Except.ok ()
        else Except.error
          (PyError.valueError ("Node " ++ nid ++ " option points to unknown node"))) =
        Except.error e := h
    split at h2
    · cases h2
    · cases h2; rfl
  · cases h

theorem checkOpt_err_kind {story : List (String × JValue)} {nid : String}
    {o : JValue} {e : PyError} (h : checkOpt story nid o = .error e) :
    e.kind = .valueErr ∨ e.kind = .typeErr ∨ e.kind = .attrErr := by
  cases o with
  | jobj od =>
    rcases checkOpt_jobj_err h with hk | hk
    · exact Or.inl hk
    · exact Or.inr (Or.inl hk)
  | jnull => cases h; simp [PyError.kind]
  | jbool b => cases h; simp [PyError.kind]
  | jnum q => cases h; simp [PyError.kind]
  | jstr s2 => cases h; simp [PyError.kind]
  | jarr xs => cases h; simp [PyError.kind]

theorem checkNode2_err_kind {story : List (String × JValue)} {nid : String}
    {v : JValue} {e : PyError} (h : checkNode2 story nid v = .error e) :
    e.kind = .valueErr ∨ e.kind = .attrErr ∨ e.kind = .typeErr := by
  cases v with
  | jobj node =>
    simp only [checkNode2] at h
    cases hov : pyGetD node "options" (.jarr []) with
    | jarr opts =>
      rw [hov] at h
      have h2 : eachE (checkOpt story nid) opts = .error e := h
      obtain ⟨o, _, ho⟩ := eachE_err h2
      rcases checkOpt_err_kind ho with hk | hk | hk
      · exact Or.inl hk
      · exact Or.inr (Or.inr hk)
      · exact Or.inr (Or.inl hk)
    | jstr s2 =>
      rw [hov] at h
      have h2 : (if s2.isEmpty = true then Except.ok ()
          else Except.error (PyError.attributeError "object has no attribute get")) =
          Except.error e := h
      split at h2
      · cases h2
      · cases h2; simp [PyError.kind]
    | jobj fs =>
      rw [hov] at h
      have h2 : (if fs.isEmpty = true then Except.ok ()
          else Except.error (PyError.attributeError "object has no attribute get")) =
          Except.error e := h
      split at h2
      · cases h2
      · cases h2; simp [PyError.kind]
    | jnull => rw [hov] at h; cases h; simp [PyError.kind]
    | jbool b => rw [hov] at h; cases h; simp [PyError.kind]
    | jnum q => rw [hov] at h; cases h; simp [PyError.kind]
  | jnull => cases h; simp [PyError.kind]
  | jbool b => cases h; simp [PyError.kind]
  | jnum q => cases h; simp [PyError.kind]
  | jstr s2 => cases h; simp [PyError.kind]
  | jarr xs => cases h; simp [PyError.kind]

theorem nextCheckE_err {story : List (String × JValue)} {nxt : JValue} {m : String}
    {e : PyError}
    (h : (match nxt with
          | JValue.jnull => Except.ok ()
          | v =>
            match memStoryE story v with
            | Except.error e2 => Except.error e2
            | Except.ok b =>
              if b = true then Except.ok ()
              else Except.error (PyError.valueError m)) = .error e) :
    e.kind = .valueErr ∨ e.kind = .typeErr := by
  cases nxt with
  | jnull => cases h
  | jstr s2 =>
    have h2 : (if (sGet story s2).isSome = true then Except.ok ()
        else Except.error (PyError.valueError m)) = Except.error e := h
    split at h2
    · cases h2
    · cases h2; exact Or.inl rfl
  | jbool b => cases h; exact Or.inl rfl
  | jnum q => cases h; exact Or.inl rfl
  | jarr xs => cases h; exact Or.inr rfl
  | jobj fs => cases h; exact Or.inr rfl

theorem nextCheckE_shaped_err {story : List (String × JValue)} {nxt : JValue}
    {m : String} {e : PyError} (hh : jHashable nxt = true)
    (h : (match nxt with
          | JValue.jnull => Except.ok ()
          | v =>
            match memStoryE story v with
            | Except.error e2 => Except.error e2
            | Except.ok b =>
              if b = true then Except.ok ()
              else Except.error (PyError.valueError m)) = .error e) :
    e.kind = .valueErr := by
  rcases nextCheckE_err h with hk | hk
  · exact hk
  · exfalso
    cases nxt with
    | jnull => cases h
    | jstr s2 =>
      have h2 : (if (sGet story s2).isSome = true then Except.ok ()
          else Except.error (PyError.valueError m)) = Except.error e := h
      split at h2
      · cases h2
      · cases h2; cases hk
    | jbool b => cases h; cases hk
    | jnum q => cases h; cases hk
    | jarr xs => cases hh
    | jobj fs => cases hh

theorem checkNode3_jobj_err {story : List (String × JValue)} {nid : String}
    {node : List (String × JValue)} {e : PyError}
    (h : checkNode3 story nid (.jobj node) = .error e) :
    e.kind = .valueErr ∨ e.kind = .typeErr := by
  simp only [checkNode3] at h
  split at h
  · cases h; exact Or.inl rfl
  · cases hnm : checkNextMap story nid (pyGet node "next_map") with
    | error e2 =>
      rw [hnm] at h
      cases h
      exact Or.inl (checkNextMap_err_kind hnm)
    | ok u =>
      rw [hnm] at h
      cases u
      exact nextCheckE_err h

theorem checkNode3_shaped_err {story : List (String × JValue)} {nid : String}
    {node : List (String × JValue)} {e : PyError}
    (hh : jHashable (pyGet node "next") = true)
    (h : checkNode3 story nid (.jobj node) = .error e) : e.kind = .valueErr := by
  simp only [checkNode3] at h
  split at h
  · cases h; rfl
  · cases hnm : checkNextMap story nid (pyGet node "next_map") with
    | error e2 =>
      rw [hnm] at h
      cases h
      exact checkNextMap_err_kind hnm
    | ok u =>
      rw [hnm] at h
      cases u
      exact nextCheckE_shaped_err hh h

theorem checkNode3_err_kind {story : List (String × JValue)} {nid : String}
    {v : JValue} {e : PyError} (h : checkNode3 story nid v = .error e) :
    e.kind = .valueErr ∨ e.kind = .typeErr ∨ e.kind = .attrErr := by
  cases v with
  | jobj node =>
    rcases checkNode3_jobj_err h with hk | hk
    · exact Or.inl hk
    · exact Or.inr (Or.inl hk)
  | jnull => cases h; simp [PyError.kind]
  | jbool b => cases h; simp [PyError.kind]
  | jnum q => cases h; simp [PyError.kind]
  | jstr s2 => cases h; simp [PyError.kind]
  | jarr xs => cases h; simp [PyError.kind]

theorem nodeShapeB_jobj {v : JValue} (h : nodeShapeB v = true) :
    ∃ node, v = .jobj node := by
  cases v with
  | jobj node => exact ⟨node, rfl⟩
  | jnull => cases h
  | jbool b => cases h
  | jnum q => cases h
  | jstr s2 => cases h
  | jarr xs => cases h

theorem wellShaped_node {story : List (String × JValue)}
    (hws : wellShapedB (.jobj story) = true) :
    ∀ p ∈ story, nodeShapeB p.2 = true := by
  intro p hp
  simp only [wellShapedB, List.all_eq_true] at hws
  exact hws p hp

theorem nodeShapeB_next {node : List (String × JValue)}
    (h : nodeShapeB (.jobj node) = true) : jHashable (pyGet node "next") = true := by
  simp only [nodeShapeB, Bool.and_eq_true] at h
  exact h.1

theorem nodeShapeB_entries {node : List (String × JValue)} {xs : List JValue}
    (h : nodeShapeB (.jobj node) = true) (ho : sGet node "options" = some (.jarr xs)) :
    ∀ o ∈ xs, ∃ od, o = .jobj od ∧ jHashable (pyGet od "next") = true := by
  simp only [nodeShapeB, ho, Bool.and_eq_true, List.all_eq_true] at h
  intro o ho2
  have h2 := h.2 o ho2
  cases o with
  | jobj od => exact ⟨od, rfl, h2⟩
  | jnull => cases h2
  | jbool b => cases h2
  | jnum q => cases h2
  | jstr s2 => cases h2
  | jarr ys => cases h2

theorem validate_story_err_not_fnf {v : JValue} {e : PyError}
    (h : validate_story v = .error e) : e.kind ≠ ErrKind.fileNotFound := by
  cases v with
  | jobj story =>
    simp only [validate_story] at h
    cases h1 : eachE (fun p => checkNode1 p.1 p.2) story with
    | error e1 =>
      rw [h1] at h
      cases h
      obtain ⟨p, _, hp⟩ := eachE_err h1
      rcases checkNode1_err_kind hp with hk | hk <;> simp [hk]
    | ok u1 =>
      rw [h1] at h
      cases u1
      cases h2 : eachE (fun p => checkNode2 story p.1 p.2) story with
      | error e2 =>
        rw [h2] at h
        cases h
        obtain ⟨p, _, hp⟩ := eachE_err h2
        rcases checkNode2_err_kind hp with hk | hk | hk <;> simp [hk]
      | ok u2 =>
        rw [h2] at h
        cases u2
        cases h3 : eachE (fun p => checkNode3 story p.1 p.2) story with
        | error e3 =>
          rw [h3] at h
          cases h
          obtain ⟨p, _, hp⟩ := eachE_err h3
          rcases checkNode3_err_kind hp with hk | hk | hk <;> simp [hk]
        | ok u3 => rw [h3] at h; cases h
  | jnull => cases h; simp [PyError.kind]
  | jbool b => cases h; simp [PyError.kind]
  | jnum q => cases h; simp [PyError.kind]
  | jstr s2 => cases h; simp [PyError.kind]
  | jarr xs => cases h; simp [PyError.kind]

theorem validate_story_err_shaped {v : JValue} {e : PyError}
    (hws : wellShapedB v = true) (h : validate_story v = .error e) :
    e.kind = ErrKind.valueErr := by
  cases v with
  | jobj story =>
    simp only [validate_story] at h
    cases h1 : eachE (fun p => checkNode1 p.1 p.2) story with
    | error e1 =>
      rw [h1] at h
      cases h
      obtain ⟨p, hp, hpe⟩ := eachE_err h1
      obtain ⟨node, hnode⟩ := nodeShapeB_jobj (wellShaped_node hws p hp)
      rw [hnode] at hpe
      exact checkNode1_jobj_err hpe
    | ok u1 =>
      rw [h1] at h
      cases u1
      cases h2 : eachE (fun p => checkNode2 story p.1 p.2) story with
      | error e2 =>
        rw [h2] at h
        cases h
        obtain ⟨p, hp, hpe⟩ := eachE_err h2
        have hcn1 := eachE_ok h1 p hp
        obtain ⟨node, hnode, _, hopts⟩ := checkNode1_ok_shape hcn1
        rw [hnode] at hpe
        have hshape := wellShaped_node hws p hp
        rw [hnode] at hshape
        have hja : ∃ xs, pyGetD node "options" (.jarr []) = .jarr xs ∧
            ∀ o ∈ xs, ∃ od, o = .jobj od ∧ jHashable (pyGet od "next") = true := by
          cases ho : sGet node "options" with
          | none => exact ⟨[], by simp [pyGetD, ho], by simp⟩
          | some o =>
            obtain ⟨xs, rfl⟩ := hopts o ho
            exact ⟨xs, by simp [pyGetD, ho], nodeShapeB_entries hshape ho⟩
        obtain ⟨xs, hxs, hentries⟩ := hja
        simp only [checkNode2] at hpe
        rw [hxs] at hpe
        have hpe2 : eachE (checkOpt story p.1) xs = .error e := hpe
        obtain ⟨o, hoin, hoe⟩ := eachE_err hpe2
        obtain ⟨od, rfl, hho⟩ := hentries o hoin
        exact checkOpt_shaped_err hho hoe
      | ok u2 =>
        rw [h2] at h
        cases u2
        cases h3 : eachE (fun p => checkNode3 story p.1 p.2) story with
        | error e3 =>
          rw [h3] at h
          cases h
          obtain ⟨p, hp, hpe⟩ := eachE_err h3
          have hcn1 := eachE_ok h1 p hp
          obtain ⟨node, hnode, _, _⟩ := checkNode1_ok_shape hcn1
          have hshape := wellShaped_node hws p hp
          rw [hnode] at hpe hshape
          exact checkNode3_shaped_err (nodeShapeB_next hshape) hpe
        | ok u3 => rw [h3] at h; cases h
  | jnull => cases h; rfl
  | jbool b => cases h; rfl
  | jnum q => cases h; rfl
  | jstr s2 => cases h; rfl
  | jarr xs => cases h; rfl

/-! ### Routing-target helper lemmas -/

theorem work_targets_nm {node : List (String × JValue)} {nid : String}
    {ai_opts : List String} {x : JValue} {xs : List JValue}
    (hnm : sGet node "next_map" = some (.jarr (x :: xs))) :
    work_targets node nid ai_opts = (x :: xs).filterMap strOfJ := by
  unfold work_targets
  rw [hnm]

theorem work_targets_next {node : List (String × JValue)} {nid : String}
    {ai_opts : List String} {t : String}
    (hnm : ∀ x xs, sGet node "next_map" ≠ some (.jarr (x :: xs)))
    (hnext : sGet node "next" = some (.jstr t)) :
    work_targets node nid ai_opts = List.replicate (max 1 ai_opts.length) t := by
  unfold work_targets
  split
  · rename_i x xs heq
    exact absurd heq (hnm x xs)
  · rw [hnext]

theorem work_targets_self {node : List (String × JValue)} {nid : String}
    {ai_opts : List String}
    (hnm : ∀ x xs, sGet node "next_map" ≠ some (.jarr (x :: xs)))
    (hnx : ∀ t, sGet node "next" ≠ some (.jstr t)) :
    work_targets node nid ai_opts = List.replicate (max 1 ai_opts.length) nid := by
  unfold work_targets
  split
  · rename_i x xs heq
    exact absurd heq (hnm x xs)
  · split
    · rename_i t heq
      exact absurd heq (hnx t)
    · rfl

theorem jStrList_map_jstr : ∀ xs : List String,
    jStrList (.jarr (xs.map JValue.jstr)) = some xs := by
  intro xs
  simp only [jStrList]
  induction xs with
  | nil => rfl
  | cons a rest ih =>
    simp only [jStrList] at ih
    simp [allStrs, strOfJ, ih]

/-! ### The claims -/

/-- C1: for a hinted node resolution (no authored options, present `next_hint`)
in a loaded story, the routing policy is applied in priority order: a non-empty
list `next_map` routes the i-th generated label to `next_map[i]` and drops
labels whose index falls outside it; else a set `next` routes every generated
label to that single target; else every generated label routes back to the
current node. -/
theorem c1_hinted_routing_policy
    (file : Option String) (s : List (String × JValue)) (nid : String)
    (node : List (String × JValue)) (ai_opts : List String)
    (hload : load_story file = Except.ok s)
    (hnode : sGet s nid = some (.jobj node))
    (hnoopts : truthy (pyGetD node "options" (.jarr [])) = false)
    (hhint : truthy (pyGetD node "next_hint" (.jstr "")) = true) :
    (∀ x xs, sGet node "next_map" = some (.jarr (x :: xs)) →
      (x :: xs) = ((x :: xs).filterMap strOfJ).map JValue.jstr ∧
      work_mapped s ai_opts (work_targets node nid ai_opts) =
        (ai_opts.zip ((x :: xs).filterMap strOfJ)).map (fun p => Choice.mk p.1 p.2)) ∧
    ((∀ x xs, sGet node "next_map" ≠ some (.jarr (x :: xs))) →
      ∀ t, sGet node "next" = some (.jstr t) →
      work_mapped s ai_opts (work_targets node nid ai_opts) =
        ai_opts.map (fun l => Choice.mk l t)) ∧
    ((∀ x xs, sGet node "next_map" ≠ some (.jarr (x :: xs))) →
      (∀ t, sGet node "next" ≠ some (.jstr t)) →
      work_mapped s ai_opts (work_targets node nid ai_opts) =
        ai_opts.map (fun l => Choice.mk l nid)) := by
  obtain ⟨c, v, -, -, hval⟩ := load_story_ok hload
  obtain ⟨hv, h1, h2, h3⟩ := validate_story_ok hval
  have hps : (nid, JValue.jobj node) ∈ s := sGet_mem hnode
  have hc3 := eachE_ok h3 (nid, .jobj node) hps
  obtain ⟨hnmok, hnextok⟩ := checkNode3_ok_parts hc3
  refine ⟨?_, ?_, ?_⟩
  · intro x xs hnm
    rw [show pyGet node "next_map" = JValue.jarr (x :: xs) by simp [pyGet, hnm]] at hnmok
    have hentries := checkNextMap_ok_entries hnmok
    obtain ⟨strs, hmap, hfm, hall⟩ := all_jstr_filterMap hentries
    constructor
    · rw [hfm, ← hmap]
    · rw [work_targets_nm hnm, hfm]
      exact work_mapped_zip ai_opts strs hall
  · intro hnm t hnext
    rw [work_targets_next hnm hnext]
    have hsome : (sGet s t).isSome = true :=
      hnextok t (by simp [pyGet, hnext])
    exact work_mapped_const hsome ai_opts _ (Nat.le_max_right 1 _)
  · intro hnm hnx
    rw [work_targets_self hnm hnx]
    have hsome : (sGet s nid).isSome = true := by rw [hnode]; rfl
    exact work_mapped_const hsome ai_opts _ (Nat.le_max_right 1 _)

/-- C1 witness: in the loaded story `c1story`, the hinted node `a` with
`next_map = ["b", "c"]` maps three generated labels to exactly two choices
routed to `b` and `c`. -/
theorem c1_hinted_routing_policy_witness :
    work_mapped c1story ["x", "y", "z"] (work_targets c1node "a" ["x", "y", "z"]) =
      [Choice.mk "x" "b", Choice.mk "y" "c"] := by
  have h := (c1_hinted_routing_policy (some c1text) c1story "a" c1node
    ["x", "y", "z"] rfl rfl rfl rfl).1 (JValue.jstr "b") [JValue.jstr "c"] rfl
  rw [h.2]
  rfl

/-- C5: a node whose authored options list is present and non-empty resolves
immediately and synchronously to exactly those options in order — the outcome
is `shown` with the authored list, never `generating` — regardless of any
`next_hint`, `next`, or `next_map` also present on the node. -/
theorem c5_authored_options_precedence
    (s : List (String × JValue)) (nid : String) (node : List (String × JValue))
    (t o : JValue) (os : List JValue)
    (hnode : sGet s nid = some (.jobj node))
    (hopts : sGet node "options" = some (.jarr (o :: os)))
    (htext : sGet node "text" = some t) :
    show_node s nid = Except.ok (Outcome.shown t (.jarr (o :: os))) := by
  have hov : pyGetD node "options" (.jarr []) = .jarr (o :: os) := by
    simp [pyGetD, hopts]
  simp [show_node, hnode, hov, truthy, htext]

/-- C5 witness: the authored-terminal node of `c5story`, which also carries
`next_hint`, `next` and `next_map`, resolves to exactly its authored option. -/
theorem c5_authored_options_precedence_witness :
    show_node c5story "a" = Except.ok (Outcome.shown (.jstr "T")
      (.jarr [.jobj [("label", .jstr "L"), ("next", .jstr "a")]])) :=
  c5_authored_options_precedence c5story "a" c5node (.jstr "T") _ [] rfl rfl rfl

/-- C7: a node whose options list is empty or absent and whose next_hint is
empty or absent resolves immediately to its text with zero choices and no
generation is dispatched. -/
theorem c7_terminal_node_zero_choices
    (s : List (String × JValue)) (nid : String) (node : List (String × JValue))
    (t : JValue)
    (hnode : sGet s nid = some (.jobj node))
    (hopts : sGet node "options" = none ∨ sGet node "options" = some (JValue.jarr []))
    (hhint : sGet node "next_hint" = none ∨ sGet node "next_hint" = some (JValue.jstr ""))
    (htext : sGet node "text" = some t) :
    show_node s nid = Except.ok (Outcome.shown t (.jarr [])) := by
  have hoptsv : truthy (pyGetD node "options" (.jarr [])) = false := by
    rcases hopts with h | h <;> simp [pyGetD, h, truthy]
  have hhintv : truthy (pyGetD node "next_hint" (.jstr "")) = false := by
    rcases hhint with h | h <;> simp [pyGetD, h, truthy]
  simp [show_node, hnode, hoptsv, hhintv, htext]

/-- C7 witness: the terminal node of `c7story` shows its text with zero
choices. -/
theorem c7_terminal_node_zero_choices_witness :
    show_node c7story "a" = Except.ok (Outcome.shown (.jstr "T") (.jarr [])) :=
  c7_terminal_node_zero_choices c7story "a" c7node (.jstr "T")
    rfl (Or.inl rfl) (Or.inl rfl) rfl

/-- C6: when zero generated options survive the routing step, the resolver
still offers forward progress: with no raw generated label it presents exactly
one synthesized Continue choice self-looped to the current node; with raw
labels that could not be routed it presents the raw labels (up to two, in
order) self-looped to the current node instead of the generic label. -/
theorem c6_zero_survivors_fallback
    (story : List (String × JValue)) (nid : String) (node : List (String × JValue))
    (ai_opts : List String)
    (hmapped : work_mapped story ai_opts (work_targets node nid ai_opts) = []) :
    (ai_opts = [] →
      update_buttons (work_mapped story ai_opts (work_targets node nid ai_opts))
        ai_opts nid = [Choice.mk "Continue" nid]) ∧
    (ai_opts ≠ [] →
      update_buttons (work_mapped story ai_opts (work_targets node nid ai_opts))
        ai_opts nid = (ai_opts.take 2).map (fun l => Choice.mk l nid)) := by
  constructor
  · intro h0
    subst h0
    rw [hmapped]
    rfl
  · intro hne
    rw [hmapped]
    cases ai_opts with
    | nil => exact absurd rfl hne
    | cons a rest =>
      cases rest with
      | nil => rfl
      | cons b rest2 => rfl

/-- C6 witness: with an empty story no target survives; zero labels give the
Continue self-loop and one label gives that raw label self-looped. -/
theorem c6_zero_survivors_fallback_witness :
    update_buttons (work_mapped [] [] (work_targets [] "n" [])) [] "n" =
      [Choice.mk "Continue" "n"] ∧
    update_buttons (work_mapped [] ["A"] (work_targets [] "n" ["A"])) ["A"] "n" =
      [Choice.mk "A" "n"] := by
  constructor
  · exact (c6_zero_survivors_fallback [] "n" [] [] rfl).1 rfl
  · have h := (c6_zero_survivors_fallback [] "n" [] ["A"] rfl).2 (by simp)
    rw [h]
    rfl

/-- C9: a hinted-node resolution whose generation fails leaves the previously
presented state completely unchanged and surfaces only an error indication
carrying the failure message. -/
theorem c9_generation_failure_preserves_state
    (st : UIState) (story : List (String × JValue)) (nid : String)
    (node : List (String × JValue)) (t : String) (e : PyError)
    (htext : sGet node "text" = some (JValue.jstr t)) :
    apply_work st (work_result story nid node (Except.error e)) =
      (st, some (pyMsg e)) := by
  simp [work_result, htext, apply_work]

/-- C9 witness: a transport failure on the hinted node of `c1story` leaves a
concrete prior state untouched and reports the error message. -/
theorem c9_generation_failure_preserves_state_witness :
    apply_work (UIState.mk "prev" [Choice.mk "x" "a"])
        (work_result c1story "a" c1node
          (Except.error (PyError.valueError "timeout"))) =
      (UIState.mk "prev" [Choice.mk "x" "a"], some "timeout") :=
  c9_generation_failure_preserves_state (UIState.mk "prev" [Choice.mk "x" "a"])
    c1story "a" c1node "t" (PyError.valueError "timeout") rfl

/-- C10: navigation begins at the fixed entry identifier "start", and the
loader never checks that it exists: any accepted graph lacking the key "start"
makes the initial resolution raise an unhandled KeyError on the bare
`story["start"]` lookup. -/
theorem c10_missing_start_unhandled_keyerror
    (file : Option String) (s : List (String × JValue))
    (hload : load_story file = Except.ok s)
    (hstart : sGet s "start" = none) :
    build_ui_initial s = Except.error (PyError.keyError "start") := by
  simp [build_ui_initial, show_node, hstart]

/-- C10 witness: the loader accepts `c10text`, whose graph has no "start" key,
and the initial resolution raises KeyError. -/
theorem c10_missing_start_unhandled_keyerror_witness :
    build_ui_initial c10story = Except.error (PyError.keyError "start") :=
  c10_missing_start_unhandled_keyerror (some c10text) c10story rfl rfl

/-- C2 counterexample: the loader accepts `c2text`, yet the identifier `""`
referenced through `options[].next` is not a key of the returned graph — the
validator's truthiness test skips empty-string references, refuting the claim
as stated. -/
theorem c2_counterexample :
    load_story (some c2text) = Except.ok c2story ∧
    "" ∈ storyRefs c2story ∧ sGet c2story "" = none := by
  refine ⟨rfl, ?_, rfl⟩
  decide

/-- C2 (amended): for every input accepted by the loader, every identifier
referenced through a truthy (non-empty) `options[].next`, through `next`, or
through `next_map[]` exists as a key of the returned graph; an option whose
`next` is the empty string escapes the referential check. -/
theorem c2_amended_referential_integrity
    (file : Option String) (s : List (String × JValue))
    (hload : load_story file = Except.ok s) :
    ∀ r ∈ storyRefsTruthy s, (sGet s r).isSome = true := by
  obtain ⟨c, v, -, -, hval⟩ := load_story_ok hload
  obtain ⟨hv, h1, h2, h3⟩ := validate_story_ok hval
  intro r hr
  simp only [storyRefsTruthy, List.mem_flatten] at hr
  obtain ⟨l, hl, hrl⟩ := hr
  simp only [List.mem_map] at hl
  obtain ⟨p, hp, rfl⟩ := hl
  have hc2 := eachE_ok h2 p hp
  have hc3 := eachE_ok h3 p hp
  cases hpv : p.2 with
  | jobj node =>
    rw [hpv] at hrl hc2 hc3
    exact nodeRefsTruthy_covered hc2 hc3 r hrl
  | jnull => rw [hpv] at hrl; simp [nodeRefsTruthy] at hrl
  | jbool b => rw [hpv] at hrl; simp [nodeRefsTruthy] at hrl
  | jnum q => rw [hpv] at hrl; simp [nodeRefsTruthy] at hrl
  | jstr s2 => rw [hpv] at hrl; simp [nodeRefsTruthy] at hrl
  | jarr xs => rw [hpv] at hrl; simp [nodeRefsTruthy] at hrl

/-- C2 amended witness: in the loaded story `w2story`, the referenced
identifier `b` is a key. -/
theorem c2_amended_referential_integrity_witness :
    (sGet w2story "b").isSome = true :=
  c2_amended_referential_integrity (some w2text) w2story rfl "b" (by decide)

/-- C8 counterexample: a missing source fails with `FileNotFoundError` while a
malformed source fails with `ValueError` — two different error kinds for two
of the claimed violation categories, refuting the single-unified-kind claim. -/
theorem c8_counterexample :
    load_story none = Except.error (PyError.fileNotFoundError "Story file not found") ∧
    load_story (some "garbage") =
      Except.error (PyError.valueError "Story file is not valid JSON") ∧
    PyError.kind (PyError.fileNotFoundError "Story file not found") ≠
      PyError.kind (PyError.valueError "Story file is not valid JSON") := by
  refine ⟨rfl, rfl, ?_⟩
  decide

/-- C8 (amended): a missing source is the one failure with kind
`FileNotFoundError`; a present source never fails with that kind; and on a
present source whose nodes and authored options are mappings with hashable
`next` fields, every loader failure — malformed JSON, non-mapping top level, missing or non-string text,
non-list options, dangling references, bad `next_map`, and a hinted node with
no route — carries the single kind `ValueError` with a human-readable cause. -/
theorem c8_amended_error_kinds :
    (∀ e, load_story none = Except.error e → PyError.kind e = ErrKind.fileNotFound) ∧
    (∀ txt e, load_story (some txt) = Except.error e →
      PyError.kind e ≠ ErrKind.fileNotFound) ∧
    (∀ txt e, wellShapedB ((jsonLoads txt).getD JValue.jnull) = true →
      load_story (some txt) = Except.error e → PyError.kind e = ErrKind.valueErr) := by
  refine ⟨?_, ?_, ?_⟩
  · intro e h
    cases h
    rfl
  · intro txt e h
    simp only [load_story] at h
    cases hj : jsonLoads txt with
    | none => rw [hj] at h; cases h; simp [PyError.kind]
    | some v => rw [hj] at h; exact validate_story_err_not_fnf h
  · intro txt e hws h
    simp only [load_story] at h
    cases hj : jsonLoads txt with
    | none => rw [hj] at h; cases h; rfl
    | some v =>
      rw [hj] at h
      rw [hj] at hws
      exact validate_story_err_shaped (by simpa using hws) h

/-- C8 amended witness: the two kinds at the concrete failing inputs. -/
theorem c8_amended_error_kinds_witness :
    PyError.kind (PyError.fileNotFoundError "Story file not found") =
      ErrKind.fileNotFound ∧
    PyError.kind (PyError.valueError "Story file is not valid JSON") =
      ErrKind.valueErr :=
  ⟨c8_amended_error_kinds.1 _ rfl,
   c8_amended_error_kinds.2.2 "garbage" _ (by decide) rfl⟩

/-- C3 counterexample: the raw output `"5"` parses as strict JSON to a
non-mapping, and `data.get` then raises `AttributeError` — `parse` does signal
an error to its caller, refuting the claim as stated. -/
theorem c3_counterexample :
    parse_scene_and_options_json "5" =
      Except.error (PyError.attributeError "object has no attribute get") := rfl

/-- C3 (amended): whenever strict parsing of the whole raw output fails,
`parse` returns without raising (and returns an empty scene and empty label
list when the brace-recovery attempt also fails); whenever the whole-string
parse yields a mapping, `parse` returns without raising, degrading a
non-string scene to the empty string and a non-list-of-strings options field
to the empty list, each independently; but a whole-string parse yielding a
non-mapping raises `AttributeError`. -/
theorem c3_amended_parse_totality :
    (∀ s, jsonLoads s = none →
      ∃ p, parse_scene_and_options_json s = Except.ok p) ∧
    (∀ s, jsonLoads s = none →
      (∀ sub, braceSpan s = some sub → jsonLoads sub = none) →
      parse_scene_and_options_json s = Except.ok ("", [])) ∧
    (∀ s fs, jsonLoads s = some (JValue.jobj fs) →
      ∃ p, parse_scene_and_options_json s = Except.ok p ∧
        ((∀ u, pyGetD fs "scene" (JValue.jstr "") ≠ JValue.jstr u) → p.1 = "") ∧
        (jStrList (pyGetD fs "options" (JValue.jarr [])) = none → p.2 = [])) ∧
    (∀ s v, jsonLoads s = some v → (∀ fs, v ≠ JValue.jobj fs) →
      parse_scene_and_options_json s =
        Except.error (PyError.attributeError "object has no attribute get")) := by
  refine ⟨?_, ?_, ?_, ?_⟩
  · intro s hj
    unfold parse_scene_and_options_json
    rw [hj]
    cases hb : braceSpan s with
    | none => exact ⟨("", []), rfl⟩
    | some sub =>
      show ∃ p, (match jsonLoads sub with
          | some data => finishParse data
          | none => Except.ok ("", [])) = Except.ok p
      cases hj2 : jsonLoads sub with
      | none => exact ⟨("", []), rfl⟩
      | some v =>
        obtain ⟨cs, hsub⟩ := braceSpan_shape hb
        rw [hsub] at hj2
        obtain ⟨fs, rfl⟩ := jsonLoads_brace_jobj hj2
        exact ⟨_, rfl⟩
  · intro s hj hrec
    unfold parse_scene_and_options_json
    rw [hj]
    cases hb : braceSpan s with
    | none => rfl
    | some sub =>
      show (match jsonLoads sub with
          | some data => finishParse data
          | none => Except.ok ("", [])) = Except.ok ("", [])
      rw [hrec sub hb]
  · intro s fs hj
    unfold parse_scene_and_options_json
    rw [hj]
    refine ⟨_, rfl, ?_, ?_⟩
    · intro hscene
      cases hs : pyGetD fs "scene" (.jstr "") with
      | jstr u => exact absurd hs (hscene u)
      | jnull => rfl
      | jbool b => rfl
      | jnum q => rfl
      | jarr xs => rfl
      | jobj fs2 => rfl
    · intro hopt
      show ((match jStrList (pyGetD fs "options" (JValue.jarr [])) with
             | some xs => xs
             | none => []).take 2).map pyStrip = []
      rw [hopt]
      rfl
  · intro s v hj hnobj
    unfold parse_scene_and_options_json
    rw [hj]
    cases v with
    | jobj fs => exact absurd rfl (hnobj fs)
    | jnull => rfl
    | jbool b => rfl
    | jnum q => rfl
    | jstr s2 => rfl
    | jarr xs => rfl

/-- C3 amended witness: `"garbage"` degrades to empty output without raising,
while the non-mapping JSON output `"\"x\""` raises AttributeError. -/
theorem c3_amended_parse_totality_witness :
    parse_scene_and_options_json "garbage" = Except.ok ("", []) ∧
    parse_scene_and_options_json "\"x\"" =
      Except.error (PyError.attributeError "object has no attribute get") :=
  ⟨c3_amended_parse_totality.2.1 "garbage" rfl
     (fun sub h => by rw [show braceSpan "garbage" = none from rfl] at h; cases h),
   c3_amended_parse_totality.2.2.2 "\"x\"" (JValue.jstr "x") rfl
     (fun fs h => JValue.noConfusion h)⟩

/-- C4: `parse` first attempts strict parsing of the whole raw output and
falls back to the greedy first-brace-to-last-brace substring; every successful
result has at most 2 labels, scene and labels are whitespace-trimmed, and a
well-typed options list is truncated to its first two entries in order; in
particular the noisy raw output recovers scene "S" with labels ["A", "B"] and
the raw output "garbage" degrades to an empty scene and no labels. -/
theorem c4_parse_recovery_contract :
    parse_scene_and_options_json c4noise = Except.ok ("S", ["A", "B"]) ∧
    parse_scene_and_options_json "garbage" = Except.ok ("", []) ∧
    (∀ s r, parse_scene_and_options_json s = Except.ok r → r.2.length ≤ 2) ∧
    (∀ s r, parse_scene_and_options_json s = Except.ok r →
      pyStrip r.1 = r.1 ∧ ∀ l ∈ r.2, pyStrip l = l) ∧
    (∀ (s : String) (fs : List (String × JValue)) (xs : List String),
      jsonLoads s = some (JValue.jobj fs) →
      pyGetD fs "options" (JValue.jarr []) = JValue.jarr (xs.map JValue.jstr) →
      ∃ sc, parse_scene_and_options_json s =
        Except.ok (sc, (xs.take 2).map pyStrip)) := by
  refine ⟨rfl, rfl, ?_, ?_, ?_⟩
  · intro s r h
    obtain ⟨a, bs, rfl, hlen⟩ := parse_ok_parts h
    simpa using hlen
  · intro s r h
    obtain ⟨a, bs, rfl, -⟩ := parse_ok_parts h
    constructor
    · exact pyStrip_idem a
    · intro l hl
      simp only [List.mem_map] at hl
      obtain ⟨x, -, rfl⟩ := hl
      exact pyStrip_idem x
  · intro s fs xs hj hopt
    unfold parse_scene_and_options_json
    rw [hj]
    show ∃ sc, finishParse (JValue.jobj fs) =
      Except.ok (sc, (xs.take 2).map pyStrip)
    simp only [finishParse, hopt, jStrList_map_jstr]
    exact ⟨_, rfl⟩

/-- C4 witness: the recovered result has at most two labels and a trimmed
scene. -/
theorem c4_parse_recovery_contract_witness :
    (("S", ["A", "B"]) : String × List String).2.length ≤ 2 ∧ pyStrip "S" = "S" :=
  ⟨c4_parse_recovery_contract.2.2.1 c4noise _ c4_parse_recovery_contract.1,
   (c4_parse_recovery_contract.2.2.2.1 c4noise _ c4_parse_recovery_contract.1).1⟩
